import Mathlib

/-!
Shallow embedding of the lifecycle orchestrator (`Application.cpp`) of the
Sourcetrail/Coati code-exploration application, together with theorems
checking the natural-language specification against it.

The orchestrator's collaborator calls (settings store, storage cache,
project, main view, component manager, message dispatch) are modelled as an
ordered trace of `Effect`s; the orchestrator state visible in the source
(`m_hasGUI`, `m_project`, the persisted recent-projects list) is `AppState`.
Collaborator behaviour the orchestrator observes (trial mode, the answer to
a confirmation dialog, whether a collaborator call inside the guarded load
block throws) is an `Env` oracle.
-/

/-- File paths are modelled as strings; `FilePath::empty()` is equality
with the empty string, `FilePath::str()` the identity, and `operator==`
string equality. -/
abbrev FilePath := String

namespace Application

/-- One collaborator call made by the orchestrator, in program order.
`setTitleProject p` stands for `setTitle("Coati - " + p.fileName())`,
`dispatchRefresh all uiOnly reloadSettings` for dispatching a
`MessageRefresh` with those fields. -/
inductive Effect where
  | status (text : String) (isError : Bool) (isLoading : Bool)
  | loadAppSettings
  | colorSchemeLoad (path : FilePath)
  | graphViewStyleLoad
  | clearCache
  | createProject (path : FilePath)
  | clearComponents
  | setTitleProject (path : FilePath)
  | hideStartScreen
  | refreshViews
  | forceRefreshProject
  | refreshProjectIncremental
  | confirm (question : String)
  | setRecentProjects (l : List FilePath)
  | saveAppSettings
  | updateRecentProjectMenu
  | logError (text : String)
  | dispatchRefresh (all : Bool) (uiOnly : Bool) (reloadSettings : Bool)
  | stopMessageLoop
  | stopSchedulerLoop
  | saveLayout
  | startSchedulerLoop
  | setSendMessagesAsTasks (b : Bool)
  | startMessageLoop
  deriving DecidableEq

/-- Orchestrator state visible in the source: the `m_hasGUI` flag, the
settings-file path of `m_project` (none when `m_project` is null), and the
recent-projects list held by the settings store. -/
structure AppState where
  hasGUI : Bool
  project : Option FilePath
  recentProjects : List FilePath
  deriving DecidableEq

/-- Collaborator oracle: `isTrial()`, the index returned by
`MainView::confirm`, the index of the collaborator call inside
`createAndLoadProject`'s try block that throws (none = no fault), and the
color-scheme path stored in the application settings. -/
structure Env where
  isTrial : Bool
  confirmResult : Int
  throwAt : Option Nat
  settingsColorSchemePath : FilePath
  deriving DecidableEq

/-- The pure list update performed by `Application::updateRecentProjects`
(lines 282-296): erase the first occurrence of the path if the list is
nonempty, push the path to the front, then pop from the back while the
size exceeds 7. -/
def updateRecentProjectsList (recentProjects : List FilePath) (p : FilePath) :
    List FilePath :=
  let r := if recentProjects.isEmpty then recentProjects else recentProjects.erase p
  (p :: r).take 7

/-- Effects of `Application::loadStyle` (lines 80-84): load the color
scheme, then reload the graph-view style settings. -/
def loadStyleEffs (colorSchemePath : FilePath) : List Effect :=
  [Effect.colorSchemeLoad colorSchemePath, Effect.graphViewStyleLoad]

/-- Effects of `Application::loadSettings` (lines 72-78): load the
application settings file, then `loadStyle` with the color-scheme path read
from those settings. -/
def loadSettingsEffs (env : Env) : List Effect :=
  Effect.loadAppSettings :: loadStyleEffs env.settingsColorSchemePath

/-- Condition `!m_project || projectSettingsFilePath !=
m_project->getProjectSettingsFilePath()` used twice in
`Application::handleMessage(MessageLoadProject*)`. -/
def differsFromCurrent (s : AppState) (path : FilePath) : Bool :=
  match s.project with
  | none => true
  | some q => path != q

/-- `Application::refreshProject` (lines 164-182): status message, clear
the storage cache, refresh views when a GUI is attached, then either
`Project::forceRefresh` or `Project::refresh`. The orchestrator state is
untouched. -/
def refreshProject (s : AppState) (force : Bool) : AppState × List Effect :=
  (s, [Effect.status "Refreshing Project" false false, Effect.clearCache]
      ++ (if s.hasGUI then [Effect.refreshViews] else [])
      ++ [if force then Effect.forceRefreshProject
          else Effect.refreshProjectIncremental])

/-- Execution context of the try block in
`Application::createAndLoadProject`: state so far, emitted effects, number
of collaborator calls completed or attempted, and whether an exception has
been raised. -/
structure TryCtx where
  st : AppState
  effs : List Effect
  calls : Nat
  threw : Bool
  deriving DecidableEq

/-- One collaborator call inside the try block: if an exception is already
in flight nothing happens; if the oracle makes this call throw, the
exception starts here (the call's effects and state update are lost);
otherwise the call completes. -/
def call (env : Env) (eff : List Effect) (upd : AppState → AppState)
    (c : TryCtx) : TryCtx :=
  if c.threw then c
  else if env.throwAt = some c.calls then
    { c with calls := c.calls + 1, threw := true }
  else
    { st := upd c.st, effs := c.effs ++ eff, calls := c.calls + 1,
      threw := false }

/-- The try block of `Application::createAndLoadProject` (lines 132-148):
`updateRecentProjects` (lines 277-303, a single guarded block that runs
only with a GUI: recompute the list, store it, save the settings, update
the menu), clear the storage cache, `Project::create` (which on success
replaces `m_project`), `loadProject` (clear components when a GUI is
attached), then the GUI-only title/start-screen/view updates. -/
def tryBody (env : Env) (s : AppState) (path : FilePath) : TryCtx :=
  let c0 : TryCtx := ⟨s, [], 0, false⟩
  let c1 :=
    if s.hasGUI then
      call env
        [Effect.setRecentProjects (updateRecentProjectsList s.recentProjects path),
         Effect.saveAppSettings, Effect.updateRecentProjectMenu]
        (fun st =>
          { st with
              recentProjects := updateRecentProjectsList st.recentProjects path })
        c0
    else c0
  let c2 := call env [Effect.clearCache] id c1
  let c3 := call env [Effect.createProject path]
    (fun st => { st with project := some path }) c2
  let c4 := if s.hasGUI then call env [Effect.clearComponents] id c3 else c3
  let c5 := if s.hasGUI then call env [Effect.setTitleProject path] id c4 else c4
  let c6 := if s.hasGUI then call env [Effect.hideStartScreen] id c5 else c5
  if s.hasGUI then call env [Effect.refreshViews] id c6 else c6

/-- `Application::createAndLoadProject` (lines 129-154): a loading status
message, then the try block; any exception raised inside it is caught and
converted into an error log plus a single error status message, and never
propagates (the function is total). -/
def createAndLoadProject (env : Env) (s : AppState) (path : FilePath) :
    AppState × List Effect :=
  let pre := [Effect.status ("Loading Project: " ++ path) false true]
  let c := tryBody env s path
  if c.threw then
    (c.st, pre ++ c.effs
      ++ [Effect.logError "Failed to load project.",
          Effect.status "Failed to load project." true false])
  else
    (c.st, pre ++ c.effs)

/-- The confirmation question asked in the force-refresh branch of
`Application::handleMessage(MessageLoadProject*)` (lines 220-222). -/
def reindexQuestion : String :=
  "Some settings were changed, the project needs to be fully reindexed. Do you want to reindex the project?"

/-- `Application::handleMessage(MessageLoadProject*)` (lines 201-240):
reload settings; return if the path is empty; with the force flag outside
trial mode, ask for confirmation when a GUI is attached (answer 1 = "No"
loads the project afresh when its path differs from the current one,
every other outcome of the branch falls through to a forced refresh);
without the force flag (or in trial mode) load the project exactly when
its path differs from the current project's. -/
def handleMessageLoadProject (env : Env) (s : AppState) (path : FilePath)
    (forceRefresh : Bool) : AppState × List Effect :=
  let pre := loadSettingsEffs env
  if path = "" then (s, pre)
  else if forceRefresh && !env.isTrial then
    if s.hasGUI then
      if env.confirmResult = 1 then
        if differsFromCurrent s path then
          let r := createAndLoadProject env s path
          (r.fst, pre ++ [Effect.confirm reindexQuestion] ++ r.snd)
        else
          let r := refreshProject s true
          (r.fst, pre ++ [Effect.confirm reindexQuestion] ++ r.snd)
      else
        let r := refreshProject s true
        (r.fst, pre ++ [Effect.confirm reindexQuestion] ++ r.snd)
    else
      let r := refreshProject s true
      (r.fst, pre ++ r.snd)
  else if differsFromCurrent s path then
    let r := createAndLoadProject env s path
    (r.fst, pre ++ r.snd)
  else
    (s, pre)

/-- `Application::handleMessage(MessageSwitchColorScheme*)` (lines
264-268): reload the style from the message's color-scheme path, then
dispatch a `MessageRefresh` marked `refreshUiOnly` and `keepSettings`
(fields all = false, uiOnly = true, reloadSettings = false). -/
def handleMessageSwitchColorScheme (s : AppState) (colorSchemePath : FilePath) :
    AppState × List Effect :=
  (s, loadStyleEffs colorSchemePath ++ [Effect.dispatchRefresh false true false])

/-- `Application::startMessagingAndScheduling` (lines 270-275): start the
scheduler loop, switch the message queue to task delivery, start the
message loop. -/
def startMessagingAndScheduling : List Effect :=
  [Effect.startSchedulerLoop, Effect.setSendMessagesAsTasks true,
   Effect.startMessageLoop]

/-- `Application::~Application` (lines 94-102): stop the message loop,
stop the scheduler loop, then save the GUI layout when a GUI is
attached. -/
def destructorEffs (hasGUI : Bool) : List Effect :=
  [Effect.stopMessageLoop, Effect.stopSchedulerLoop]
    ++ (if hasGUI then [Effect.saveLayout] else [])

/-- Discriminator for project-creation effects. -/
def isCreateProject : Effect → Bool
  | Effect.createProject _ => true
  | _ => false

/-- Discriminator for status-message effects. -/
def isStatus : Effect → Bool
  | Effect.status _ _ _ => true
  | _ => false

/-- Discriminator for error status-message effects. -/
def isErrorStatus : Effect → Bool
  | Effect.status _ e _ => e
  | _ => false

/-- Discriminator for writes of the recent-projects list to the settings
store. -/
def isSetRecentProjects : Effect → Bool
  | Effect.setRecentProjects _ => true
  | _ => false

/-- Discriminator for settings-persistence writes. -/
def isSaveAppSettings : Effect → Bool
  | Effect.saveAppSettings => true
  | _ => false

/-- Discriminator for recent-projects-menu refresh notifications. -/
def isUpdateRecentProjectMenu : Effect → Bool
  | Effect.updateRecentProjectMenu => true
  | _ => false

/-- Discriminator for confirmation-dialog requests. -/
def isConfirm : Effect → Bool
  | Effect.confirm _ => true
  | _ => false

/-- Discriminator for `Project::forceRefresh` calls. -/
def isForceRefresh : Effect → Bool
  | Effect.forceRefreshProject => true
  | _ => false

theorem updateRecentProjectsList_eq (l : List FilePath) (p : FilePath) :
    updateRecentProjectsList l p = (p :: l.erase p).take 7 := by
  unfold updateRecentProjectsList
  cases l <;> simp

theorem countP_call_zero {q : Effect → Bool} (env : Env) (eff : List Effect)
    (upd : AppState → AppState) (c : TryCtx)
    (hc : List.countP q c.effs = 0) (he : List.countP q eff = 0) :
    List.countP q (call env eff upd c).effs = 0 := by
  unfold call
  split
  · exact hc
  · split
    · exact hc
    · simp [List.countP_append, hc, he]

theorem tryBody_countP_errorStatus (env : Env) (s : AppState) (path : FilePath) :
    List.countP isErrorStatus (tryBody env s path).effs = 0 := by
  unfold tryBody
  cases hG : s.hasGUI <;> simp only [hG, Bool.false_eq_true, if_false, if_true] <;>
    repeat
      first
        | rfl
        | (apply countP_call_zero <;> try rfl)

theorem tryBody_eval_gui (env : Env) (s : AppState) (path : FilePath)
    (hT : env.throwAt = none) (hG : s.hasGUI = true) :
    tryBody env s path =
      ⟨⟨s.hasGUI, some path, updateRecentProjectsList s.recentProjects path⟩,
       [Effect.setRecentProjects (updateRecentProjectsList s.recentProjects path),
        Effect.saveAppSettings, Effect.updateRecentProjectMenu,
        Effect.clearCache, Effect.createProject path, Effect.clearComponents,
        Effect.setTitleProject path, Effect.hideStartScreen,
        Effect.refreshViews],
       7, false⟩ := by
  simp [tryBody, call, hT, hG]

theorem tryBody_eval_headless (env : Env) (s : AppState) (path : FilePath)
    (hT : env.throwAt = none) (hG : s.hasGUI = false) :
    tryBody env s path =
      ⟨⟨s.hasGUI, some path, s.recentProjects⟩,
       [Effect.clearCache, Effect.createProject path],
       2, false⟩ := by
  simp [tryBody, call, hT, hG]

theorem createAndLoadProject_eval_gui (env : Env) (s : AppState)
    (path : FilePath) (hT : env.throwAt = none) (hG : s.hasGUI = true) :
    createAndLoadProject env s path =
      (⟨s.hasGUI, some path, updateRecentProjectsList s.recentProjects path⟩,
       [Effect.status ("Loading Project: " ++ path) false true,
        Effect.setRecentProjects (updateRecentProjectsList s.recentProjects path),
        Effect.saveAppSettings, Effect.updateRecentProjectMenu,
        Effect.clearCache, Effect.createProject path, Effect.clearComponents,
        Effect.setTitleProject path, Effect.hideStartScreen,
        Effect.refreshViews]) := by
  simp [createAndLoadProject, tryBody_eval_gui env s path hT hG]

theorem createAndLoadProject_eval_headless (env : Env) (s : AppState)
    (path : FilePath) (hT : env.throwAt = none) (hG : s.hasGUI = false) :
    createAndLoadProject env s path =
      (⟨s.hasGUI, some path, s.recentProjects⟩,
       [Effect.status ("Loading Project: " ++ path) false true,
        Effect.clearCache, Effect.createProject path]) := by
  simp [createAndLoadProject, tryBody_eval_headless env s path hT hG]

theorem tryBody_countP_forceRefresh (env : Env) (s : AppState) (path : FilePath) :
    List.countP isForceRefresh (tryBody env s path).effs = 0 := by
  unfold tryBody
  cases hG : s.hasGUI <;> simp only [hG, Bool.false_eq_true, if_false, if_true] <;>
    repeat
      first
        | rfl
        | (apply countP_call_zero <;> try rfl)

theorem createAndLoadProject_countP_forceRefresh (env : Env) (s : AppState)
    (path : FilePath) :
    List.countP isForceRefresh (createAndLoadProject env s path).snd = 0 := by
  have h0 := tryBody_countP_forceRefresh env s path
  unfold createAndLoadProject
  cases hth : (tryBody env s path).threw <;>
    simp [hth, List.countP_append, List.countP_cons, List.countP_nil,
      isForceRefresh, h0]

theorem createAndLoadProject_mem_loading (env : Env) (s : AppState)
    (path : FilePath) :
    Effect.status ("Loading Project: " ++ path) false true ∈
      (createAndLoadProject env s path).snd := by
  unfold createAndLoadProject
  cases hth : (tryBody env s path).threw <;> simp [hth]

/-- C1: updating a duplicate-free recent-projects list with a path `p`
puts `p` at the front, removes any previous occurrence of `p` (result
duplicate-free, `p` absent from the tail), keeps the other entries in their
relative order (the tail is the erased list truncated to 6, a sublist of
the input), truncates to at most 7 entries, never grows the list when `p`
was already present, and adding A..H to the empty list yields exactly
[H,G,F,E,D,C,B]. -/
theorem updateRecentProjectsList_spec (l : List FilePath) (p : FilePath)
    (h : l.Nodup) :
    (updateRecentProjectsList l p).head? = some p ∧
    (updateRecentProjectsList l p).Nodup ∧
    p ∉ (updateRecentProjectsList l p).tail ∧
    (updateRecentProjectsList l p).tail = (l.erase p).take 6 ∧
    List.Sublist (updateRecentProjectsList l p).tail l ∧
    (updateRecentProjectsList l p).length ≤ 7 ∧
    (p ∈ l → (updateRecentProjectsList l p).length ≤ l.length) ∧
    List.foldl updateRecentProjectsList []
      ["A", "B", "C", "D", "E", "F", "G", "H"] =
      ["H", "G", "F", "E", "D", "C", "B"] := by
  have he := updateRecentProjectsList_eq l p
  have hpe : p ∉ l.erase p := h.not_mem_erase
  refine ⟨?_, ?_, ?_, ?_, ?_, ?_, ?_, ?_⟩
  · rw [he, List.take_succ_cons]
    rfl
  · rw [he, List.take_succ_cons]
    exact List.nodup_cons.mpr
      ⟨fun hm => hpe ((List.take_sublist 6 _).subset hm),
       List.Nodup.sublist (List.take_sublist 6 _) (h.erase p)⟩
  · rw [he, List.take_succ_cons]
    exact fun hm => hpe ((List.take_sublist 6 _).subset hm)
  · rw [he, List.take_succ_cons]
    rfl
  · rw [he, List.take_succ_cons]
    exact ((List.take_sublist 6 _).trans (List.erase_sublist p l))
  · rw [he, List.length_take]
    exact min_le_left _ _
  · intro hm
    rw [he, List.length_take, List.length_cons, List.length_erase_add_one hm]
    exact min_le_right _ _
  · decide

/-- Witness for `updateRecentProjectsList_spec` at a concrete duplicate-free
list and path. -/
theorem updateRecentProjectsList_spec_witness :
    (["X", "Y"] : List FilePath).Nodup ∧
    (updateRecentProjectsList ["X", "Y"] "Y").head? = some "Y" :=
  ⟨by decide, (updateRecentProjectsList_spec ["X", "Y"] "Y" (by decide)).1⟩

/-- C6: handling SwitchColorScheme leaves the orchestrator state, and in
particular the current project, unchanged and performs exactly a style
reload (color-scheme load, graph-view style reload) followed by the
dispatch of a UI-only refresh message that keeps settings; no
settings-persistence write occurs. -/
theorem handleMessageSwitchColorScheme_spec (s : AppState) (p : FilePath) :
    handleMessageSwitchColorScheme s p =
      (s, [Effect.colorSchemeLoad p, Effect.graphViewStyleLoad,
           Effect.dispatchRefresh false true false]) ∧
    (handleMessageSwitchColorScheme s p).fst.project = s.project ∧
    List.countP isSaveAppSettings (handleMessageSwitchColorScheme s p).snd = 0 ∧
    List.countP isSetRecentProjects (handleMessageSwitchColorScheme s p).snd = 0 :=
  ⟨rfl, rfl, rfl, rfl⟩

/-- C7: on shutdown the message-bus loop is stopped first, then the task
scheduler, and only then (when a GUI is attached) the GUI-only layout
persistence runs; this is the reverse of the startup order, in which the
scheduler loop is started before the message loop. -/
theorem shutdown_order_spec :
    destructorEffs true =
      [Effect.stopMessageLoop, Effect.stopSchedulerLoop, Effect.saveLayout] ∧
    destructorEffs false =
      [Effect.stopMessageLoop, Effect.stopSchedulerLoop] ∧
    startMessagingAndScheduling =
      [Effect.startSchedulerLoop, Effect.setSendMessagesAsTasks true,
       Effect.startMessageLoop] ∧
    (destructorEffs true).indexOf Effect.stopMessageLoop <
      (destructorEffs true).indexOf Effect.stopSchedulerLoop ∧
    (destructorEffs true).indexOf Effect.stopSchedulerLoop <
      (destructorEffs true).indexOf Effect.saveLayout ∧
    startMessagingAndScheduling.indexOf Effect.startSchedulerLoop <
      startMessagingAndScheduling.indexOf Effect.startMessageLoop := by
  refine ⟨rfl, rfl, rfl, ?_, ?_, ?_⟩ <;> decide

/-- C9: in trial mode the force-refresh flag of a LoadProject message is
ignored entirely: the handler behaves exactly like a non-forced load (no
confirmation, no forced refresh, loading only when the path differs from
the current project's). -/
theorem loadProject_trial_ignores_force (env : Env) (s : AppState)
    (path : FilePath) (h : env.isTrial = true) :
    handleMessageLoadProject env s path true =
      handleMessageLoadProject env s path false := by
  simp [handleMessageLoadProject, h]

/-- Witness for `loadProject_trial_ignores_force` at a concrete trial-mode
environment. -/
theorem loadProject_trial_ignores_force_witness :
    (⟨true, 0, none, "cs"⟩ : Env).isTrial = true ∧
    handleMessageLoadProject ⟨true, 0, none, "cs"⟩ ⟨true, some "A", []⟩ "B" true =
      handleMessageLoadProject ⟨true, 0, none, "cs"⟩ ⟨true, some "A", []⟩ "B" false :=
  ⟨rfl, loadProject_trial_ignores_force ⟨true, 0, none, "cs"⟩ ⟨true, some "A", []⟩ "B" rfl⟩

/-- C10: a LoadProject message with an empty settings-file path only
reloads the application settings and the style and returns: the state
(including the recent-projects list) is unchanged, and no project
creation, no status message and no recent-projects write occurs. -/
theorem loadProject_emptyPath_spec (env : Env) (s : AppState) (force : Bool) :
    handleMessageLoadProject env s "" force =
      (s, [Effect.loadAppSettings,
           Effect.colorSchemeLoad env.settingsColorSchemePath,
           Effect.graphViewStyleLoad]) ∧
    List.countP isCreateProject (handleMessageLoadProject env s "" force).snd = 0 ∧
    List.countP isStatus (handleMessageLoadProject env s "" force).snd = 0 ∧
    List.countP isSetRecentProjects (handleMessageLoadProject env s "" force).snd = 0 ∧
    (handleMessageLoadProject env s "" force).fst.recentProjects = s.recentProjects :=
  ⟨rfl, rfl, rfl, rfl, rfl⟩

/-- C3 counterexample: a successful headless load (no UI collaborator
attached) of path "P" installs the project but leaves the recent-projects
list untouched and performs no settings-persistence write, because the
whole body of `Application::updateRecentProjects` is guarded by
`if (m_hasGUI)`; this contradicts the claim that the push to the front and
the persistence happen regardless of whether a UI collaborator is
attached. -/
theorem createAndLoadProject_headless_counterexample :
    (createAndLoadProject ⟨false, 0, none, "cs"⟩ ⟨false, none, []⟩ "P").fst.project
      = some "P" ∧
    (createAndLoadProject ⟨false, 0, none, "cs"⟩ ⟨false, none, []⟩ "P").fst.recentProjects
      = [] ∧
    List.countP isSetRecentProjects
      (createAndLoadProject ⟨false, 0, none, "cs"⟩ ⟨false, none, []⟩ "P").snd = 0 ∧
    List.countP isSaveAppSettings
      (createAndLoadProject ⟨false, 0, none, "cs"⟩ ⟨false, none, []⟩ "P").snd = 0 ∧
    List.countP isErrorStatus
      (createAndLoadProject ⟨false, 0, none, "cs"⟩ ⟨false, none, []⟩ "P").snd = 0 :=
  ⟨rfl, rfl, rfl, rfl, rfl⟩

/-- C3 amended: on every successful project load the whole recent-projects
update is conditional on a UI collaborator being attached: with a GUI the
loaded path is pushed to the front of the list (deduplicated), the list is
stored and the settings saved, and the menu notification fires; without a
GUI the list is untouched, nothing is persisted and no menu notification
fires. -/
theorem createAndLoadProject_recent_spec (env : Env) (s : AppState)
    (path : FilePath) (hT : env.throwAt = none) :
    (s.hasGUI = true →
      (createAndLoadProject env s path).fst.recentProjects =
        updateRecentProjectsList s.recentProjects path ∧
      (createAndLoadProject env s path).snd =
        [Effect.status ("Loading Project: " ++ path) false true,
         Effect.setRecentProjects (updateRecentProjectsList s.recentProjects path),
         Effect.saveAppSettings, Effect.updateRecentProjectMenu,
         Effect.clearCache, Effect.createProject path, Effect.clearComponents,
         Effect.setTitleProject path, Effect.hideStartScreen,
         Effect.refreshViews]) ∧
    (s.hasGUI = false →
      (createAndLoadProject env s path).fst.recentProjects = s.recentProjects ∧
      List.countP isSetRecentProjects (createAndLoadProject env s path).snd = 0 ∧
      List.countP isSaveAppSettings (createAndLoadProject env s path).snd = 0 ∧
      List.countP isUpdateRecentProjectMenu (createAndLoadProject env s path).snd = 0) := by
  constructor
  · intro hG
    rw [createAndLoadProject_eval_gui env s path hT hG]
    exact ⟨rfl, rfl⟩
  · intro hG
    rw [createAndLoadProject_eval_headless env s path hT hG]
    exact ⟨rfl, rfl, rfl, rfl⟩

/-- Witness for `createAndLoadProject_recent_spec`: concrete fault-free
loads with and without a GUI. -/
theorem createAndLoadProject_recent_spec_witness :
    (⟨false, 0, none, "cs"⟩ : Env).throwAt = none ∧
    (createAndLoadProject ⟨false, 0, none, "cs"⟩ ⟨true, none, ["Q"]⟩ "P").fst.recentProjects
      = updateRecentProjectsList ["Q"] "P" ∧
    (createAndLoadProject ⟨false, 0, none, "cs"⟩ ⟨false, none, ["Q"]⟩ "P").fst.recentProjects
      = ["Q"] :=
  ⟨rfl,
   ((createAndLoadProject_recent_spec ⟨false, 0, none, "cs"⟩ ⟨true, none, ["Q"]⟩ "P" rfl).1 rfl).1,
   ((createAndLoadProject_recent_spec ⟨false, 0, none, "cs"⟩ ⟨false, none, ["Q"]⟩ "P" rfl).2 rfl).1⟩

/-- C4 counterexample: with project "A" loaded, a load of "B" whose first
collaborator call throws leaves the orchestrator state exactly as it was:
the current project is still "A" and nothing records a failure in the
state — the post-state is the same successfully-loaded state as before,
so the project state does not become a distinct `Failed` state (no such
state exists in the orchestrator); exactly one error status message is the
only trace of the fault. -/
theorem createAndLoadProject_fault_state_counterexample :
    (createAndLoadProject ⟨false, 0, some 0, "cs"⟩ ⟨false, some "A", []⟩ "B").fst =
      ⟨false, some "A", []⟩ ∧
    List.countP isErrorStatus
      (createAndLoadProject ⟨false, 0, some 0, "cs"⟩ ⟨false, some "A", []⟩ "B").snd = 1 :=
  ⟨rfl, rfl⟩

/-- C4 amended: every fault raised by a collaborator call inside
`createAndLoadProject`'s guarded block is caught at the orchestrator
boundary and converted into exactly one error status message (an error
status is emitted exactly when a fault occurred, and it is the fixed
"Failed to load project." report); a fault-free execution emits no error
status and installs the new project as current. The handler is a total
function of the fault oracle, so no fault ever propagates; the
orchestrator keeps whatever project reference the partial execution left
rather than entering a distinct Failed state. -/
theorem createAndLoadProject_fault_spec (env : Env) (s : AppState)
    (path : FilePath) :
    List.countP isErrorStatus (createAndLoadProject env s path).snd =
      (if (tryBody env s path).threw then 1 else 0) ∧
    ((tryBody env s path).threw = true →
      Effect.status "Failed to load project." true false ∈
        (createAndLoadProject env s path).snd) ∧
    (env.throwAt = none →
      List.countP isErrorStatus (createAndLoadProject env s path).snd = 0 ∧
      (createAndLoadProject env s path).fst.project = some path) := by
  have h0 := tryBody_countP_errorStatus env s path
  refine ⟨?_, ?_, ?_⟩
  · unfold createAndLoadProject
    cases hth : (tryBody env s path).threw <;>
      simp [hth, List.countP_append, List.countP_cons, List.countP_nil,
        isErrorStatus, h0]
  · intro hth
    unfold createAndLoadProject
    simp [hth]
  · intro hT
    cases hG : s.hasGUI
    · rw [createAndLoadProject_eval_headless env s path hT hG]
      exact ⟨rfl, rfl⟩
    · rw [createAndLoadProject_eval_gui env s path hT hG]
      exact ⟨rfl, rfl⟩

/-- Witness for `createAndLoadProject_fault_spec`: a concrete faulting run
(exactly one error status, carrying the fixed report) and a concrete
fault-free run (no error status, project installed). -/
theorem createAndLoadProject_fault_spec_witness :
    ((tryBody ⟨false, 0, some 0, "cs"⟩ ⟨true, some "A", ["Q"]⟩ "B").threw = true ∧
      Effect.status "Failed to load project." true false ∈
        (createAndLoadProject ⟨false, 0, some 0, "cs"⟩ ⟨true, some "A", ["Q"]⟩ "B").snd) ∧
    ((⟨false, 0, none, "cs"⟩ : Env).throwAt = none ∧
      (createAndLoadProject ⟨false, 0, none, "cs"⟩ ⟨true, some "A", ["Q"]⟩ "B").fst.project
        = some "B") :=
  ⟨⟨rfl,
    (createAndLoadProject_fault_spec ⟨false, 0, some 0, "cs"⟩ ⟨true, some "A", ["Q"]⟩ "B").2.1 rfl⟩,
   ⟨rfl,
    ((createAndLoadProject_fault_spec ⟨false, 0, none, "cs"⟩ ⟨true, some "A", ["Q"]⟩ "B").2.2 rfl).2⟩⟩

/-- C2 counterexample: with a GUI attached, trial mode off, project "P"
loaded, and the user declining the reindex confirmation (answer index 1,
the "No" option), a forced LoadProject of the same path "P" still performs
the forced refresh: declining does not leave the project state alone as a
no-op, refuting the claim. -/
theorem loadProject_decline_refreshes :
    Effect.confirm reindexQuestion ∈
      (handleMessageLoadProject ⟨false, 1, none, "cs"⟩ ⟨true, some "P", []⟩ "P" true).snd ∧
    Effect.forceRefreshProject ∈
      (handleMessageLoadProject ⟨false, 1, none, "cs"⟩ ⟨true, some "P", []⟩ "P" true).snd := by
  refine ⟨?_, ?_⟩ <;> decide

/-- C2 amended: for a forced LoadProject outside trial mode: without a UI
collaborator the forced refresh proceeds and no confirmation is requested;
with a UI collaborator a confirmation is requested, and when the user
declines (answer index 1) while the requested path differs from the
current project's (or no project is loaded) the project is created and
loaded afresh with no forced refresh; in every other case — the user
accepts, or declines with the path equal to the current project's — the
forced refresh proceeds. -/
theorem handleMessageLoadProject_force_spec (env : Env) (s : AppState)
    (path : FilePath) (hp : path ≠ "") (ht : env.isTrial = false) :
    (s.hasGUI = false →
      handleMessageLoadProject env s path true =
        (s, loadSettingsEffs env ++ (refreshProject s true).snd) ∧
      List.countP isConfirm (handleMessageLoadProject env s path true).snd = 0) ∧
    (s.hasGUI = true → env.confirmResult = 1 → differsFromCurrent s path = true →
      handleMessageLoadProject env s path true =
        ((createAndLoadProject env s path).fst,
         loadSettingsEffs env ++ [Effect.confirm reindexQuestion]
           ++ (createAndLoadProject env s path).snd) ∧
      List.countP isForceRefresh (handleMessageLoadProject env s path true).snd = 0) ∧
    (s.hasGUI = true → (env.confirmResult ≠ 1 ∨ differsFromCurrent s path = false) →
      handleMessageLoadProject env s path true =
        (s, loadSettingsEffs env ++ [Effect.confirm reindexQuestion]
          ++ (refreshProject s true).snd) ∧
      Effect.forceRefreshProject ∈ (handleMessageLoadProject env s path true).snd) := by
  refine ⟨?_, ?_, ?_⟩
  · intro hG
    have he : handleMessageLoadProject env s path true =
        (s, loadSettingsEffs env ++ (refreshProject s true).snd) := by
      simp [handleMessageLoadProject, refreshProject, hp, ht, hG]
    refine ⟨he, ?_⟩
    rw [he]
    simp [List.countP_append, List.countP_cons, List.countP_nil, isConfirm,
      loadSettingsEffs, loadStyleEffs, refreshProject, hG]
  · intro hG hc hd
    have he : handleMessageLoadProject env s path true =
        ((createAndLoadProject env s path).fst,
         loadSettingsEffs env ++ [Effect.confirm reindexQuestion]
           ++ (createAndLoadProject env s path).snd) := by
      simp [handleMessageLoadProject, hp, ht, hG, hc, hd]
    refine ⟨he, ?_⟩
    rw [he]
    have h1 := createAndLoadProject_countP_forceRefresh env s path
    simp [List.countP_append, List.countP_cons, List.countP_nil, isForceRefresh,
      loadSettingsEffs, loadStyleEffs, h1]
  · intro hG hor
    have he : handleMessageLoadProject env s path true =
        (s, loadSettingsEffs env ++ [Effect.confirm reindexQuestion]
          ++ (refreshProject s true).snd) := by
      rcases hor with hc | hd
      · simp [handleMessageLoadProject, refreshProject, hp, ht, hG, hc]
      · simp [handleMessageLoadProject, refreshProject, hp, ht, hG, hd]
    refine ⟨he, ?_⟩
    rw [he]
    simp [refreshProject, hG]

/-- Witness for `handleMessageLoadProject_force_spec`: a concrete headless
forced load (refresh without confirmation) and a concrete declined
confirmation at the current project's path (refresh happens anyway). -/
theorem handleMessageLoadProject_force_spec_witness :
    handleMessageLoadProject ⟨false, 0, none, "cs"⟩ ⟨false, none, []⟩ "P" true =
      (⟨false, none, []⟩,
       loadSettingsEffs ⟨false, 0, none, "cs"⟩
         ++ (refreshProject ⟨false, none, []⟩ true).snd) ∧
    Effect.forceRefreshProject ∈
      (handleMessageLoadProject ⟨false, 1, none, "cs"⟩ ⟨true, some "P", []⟩ "P" true).snd :=
  ⟨((handleMessageLoadProject_force_spec ⟨false, 0, none, "cs"⟩ ⟨false, none, []⟩ "P"
      (by decide) rfl).1 rfl).1,
   ((handleMessageLoadProject_force_spec ⟨false, 1, none, "cs"⟩ ⟨true, some "P", []⟩ "P"
      (by decide) rfl).2.2 rfl (Or.inr (by decide))).2⟩

/-- C5: a non-forced LoadProject whose path equals the current project's
settings-file path is a no-op beyond the unconditional settings reload
(state unchanged, no project creation, no recent-projects write); when no
project is held — the code's rendering of the NoProject/Failed situations,
a null `m_project` — the load is attempted; and with a GUI attached and a
fault-free load, two successive non-forced loads of the same fresh path
produce exactly one project creation and exactly one recent-projects
update. -/
theorem handleMessageLoadProject_idempotent (env : Env) (s : AppState)
    (path : FilePath) (hp : path ≠ "") :
    (s.project = some path →
      handleMessageLoadProject env s path false = (s, loadSettingsEffs env)) ∧
    (s.project = none →
      Effect.status ("Loading Project: " ++ path) false true ∈
        (handleMessageLoadProject env s path false).snd) ∧
    (s.hasGUI = true → env.throwAt = none → differsFromCurrent s path = true →
      List.countP isCreateProject
        ((handleMessageLoadProject env s path false).snd ++
         (handleMessageLoadProject env
           (handleMessageLoadProject env s path false).fst path false).snd) = 1 ∧
      List.countP isSetRecentProjects
        ((handleMessageLoadProject env s path false).snd ++
         (handleMessageLoadProject env
           (handleMessageLoadProject env s path false).fst path false).snd) = 1) := by
  refine ⟨?_, ?_, ?_⟩
  · intro h
    simp [handleMessageLoadProject, hp, differsFromCurrent, h]
  · intro h
    have hd : differsFromCurrent s path = true := by
      simp [differsFromCurrent, h]
    simp [handleMessageLoadProject, hp, hd, createAndLoadProject_mem_loading]
  · intro hG hT hd
    have h1 : handleMessageLoadProject env s path false =
        ((⟨s.hasGUI, some path,
           updateRecentProjectsList s.recentProjects path⟩ : AppState),
         loadSettingsEffs env ++
           [Effect.status ("Loading Project: " ++ path) false true,
            Effect.setRecentProjects (updateRecentProjectsList s.recentProjects path),
            Effect.saveAppSettings, Effect.updateRecentProjectMenu,
            Effect.clearCache, Effect.createProject path, Effect.clearComponents,
            Effect.setTitleProject path, Effect.hideStartScreen,
            Effect.refreshViews]) := by
      simp [handleMessageLoadProject, hp, hd,
        createAndLoadProject_eval_gui env s path hT hG]
    have h2 : handleMessageLoadProject env
        (⟨s.hasGUI, some path,
          updateRecentProjectsList s.recentProjects path⟩ : AppState) path false =
        ((⟨s.hasGUI, some path,
           updateRecentProjectsList s.recentProjects path⟩ : AppState),
         loadSettingsEffs env) := by
      simp [handleMessageLoadProject, hp, differsFromCurrent]
    rw [h1, h2]
    constructor <;>
      simp [List.countP_append, List.countP_cons, List.countP_nil,
        isCreateProject, isSetRecentProjects, loadSettingsEffs, loadStyleEffs]

/-- Witness for `handleMessageLoadProject_idempotent`: two successive
non-forced loads of "P" from a fresh GUI state create the project exactly
once and update the recent-projects list exactly once. -/
theorem handleMessageLoadProject_idempotent_witness :
    List.countP isCreateProject
      ((handleMessageLoadProject ⟨false, 0, none, "cs"⟩ ⟨true, none, []⟩ "P" false).snd ++
       (handleMessageLoadProject ⟨false, 0, none, "cs"⟩
         (handleMessageLoadProject ⟨false, 0, none, "cs"⟩ ⟨true, none, []⟩ "P" false).fst
         "P" false).snd) = 1 ∧
    List.countP isSetRecentProjects
      ((handleMessageLoadProject ⟨false, 0, none, "cs"⟩ ⟨true, none, []⟩ "P" false).snd ++
       (handleMessageLoadProject ⟨false, 0, none, "cs"⟩
         (handleMessageLoadProject ⟨false, 0, none, "cs"⟩ ⟨true, none, []⟩ "P" false).fst
         "P" false).snd) = 1 :=
  (handleMessageLoadProject_idempotent ⟨false, 0, none, "cs"⟩ ⟨true, none, []⟩ "P"
    (by decide)).2.2 rfl rfl rfl

end Application
